import Mathlib

set_option maxHeartbeats 1000000

/-!
Shallow embedding of the barometer frontend declared in
src/libraries/AP_Baro/AP_Baro.h (class AP_Baro).

Machine floats are modelled as rationals, machine integers as naturals.
Inline member functions of the header are translated directly; member
functions whose bodies live outside src/ are modelled from the spec and
carry a doc comment saying so.
-/

/-- maximum number of sensor instances (header line 9). -/
abbrev BARO_MAX_INSTANCES : ℕ := 3

/-- maximum number of drivers (header line 13). -/
abbrev BARO_MAX_DRIVERS : ℕ := 3

/-- air pressure sensor type tag (header line 15). -/
abbrev BARO_TYPE_AIR : ℕ := 0

/-- water pressure sensor type tag (header line 16). -/
abbrev BARO_TYPE_WATER : ℕ := 1

/-- Per-instance record: `struct sensor` of AP_Baro.h lines 156-168. -/
structure Sensor where
  type : ℕ
  precision_multiplier : ℕ
  last_update_ms : ℕ
  healthy : Bool
  alt_ok : Bool
  calibrated : Bool
  pressure : ℚ
  temperature : ℚ
  altitude : ℚ
  ground_temperature : ℚ
  ground_pressure : ℚ
deriving DecidableEq

/-- The HIL staging record: the `_hil` struct of AP_Baro.h lines 118-127. -/
structure HilState where
  pressure : ℚ
  temperature : ℚ
  altitude : ℚ
  climb_rate : ℚ
  last_update_ms : ℕ
  updated : Bool
  have_alt : Bool
  have_last_update : Bool
deriving DecidableEq

/-- A raw sample staged by `accumulate()` for later consumption by
`update()` (the single-producer/single-consumer handoff of the spec). -/
structure StagedSample where
  pressure : ℚ
  temperature : ℚ
  time_ms : ℕ
deriving DecidableEq

/-- The frontend state: the data members of class AP_Baro
(header lines 117-184), with a staging slot per instance for the
accumulate/update handoff. -/
structure AP_Baro where
  _num_drivers : ℕ
  _num_sensors : ℕ
  _primary : Fin BARO_MAX_INSTANCES
  sensors : Fin BARO_MAX_INSTANCES → Sensor
  staged : Fin BARO_MAX_INSTANCES → Option StagedSample
  _hil : HilState
  _alt_offset : ℚ
  _alt_offset_active : ℚ
  _primary_baro : ℤ
  _last_altitude_EAS2TAS : ℚ
  _EAS2TAS : ℚ
  _external_temperature : ℚ
  _last_external_temperature_ms : ℕ
  _climb_rate_filter : List ℚ
  _specific_gravity : ℚ
  _base_pressure : ℚ
  _reset_base_pressure : Bool
  _hil_mode : Bool
  _last_notify_ms : ℕ
deriving DecidableEq

namespace AP_Baro

/-- `bool healthy(uint8_t instance)` (header line 37):
`sensors[instance].healthy && sensors[instance].alt_ok && sensors[instance].calibrated`. -/
def healthy (s : AP_Baro) (i : Fin BARO_MAX_INSTANCES) : Bool :=
  (s.sensors i).healthy && (s.sensors i).alt_ok && (s.sensors i).calibrated

/-- `bool healthy(void)` (header line 36): `healthy(_primary)`. -/
def healthy_primary (s : AP_Baro) : Bool :=
  s.healthy s._primary

/-- `float get_pressure(uint8_t instance)` (header line 44). -/
def get_pressure (s : AP_Baro) (i : Fin BARO_MAX_INSTANCES) : ℚ :=
  (s.sensors i).pressure

/-- `float get_pressure(void)` (header line 43): `get_pressure(_primary)`. -/
def get_pressure_primary (s : AP_Baro) : ℚ :=
  s.get_pressure s._primary

/-- `float get_temperature(uint8_t instance)` (header line 48). -/
def get_temperature (s : AP_Baro) (i : Fin BARO_MAX_INSTANCES) : ℚ :=
  (s.sensors i).temperature

/-- `float get_temperature(void)` (header line 47): `get_temperature(_primary)`. -/
def get_temperature_primary (s : AP_Baro) : ℚ :=
  s.get_temperature s._primary

/-- `float get_altitude(uint8_t instance)` (header line 65). -/
def get_altitude (s : AP_Baro) (i : Fin BARO_MAX_INSTANCES) : ℚ :=
  (s.sensors i).altitude

/-- `float get_altitude(void)` (header line 64): `get_altitude(_primary)`. -/
def get_altitude_primary (s : AP_Baro) : ℚ :=
  s.get_altitude s._primary

/-- `float get_ground_temperature(uint8_t i)` (header line 84). -/
def get_ground_temperature (s : AP_Baro) (i : Fin BARO_MAX_INSTANCES) : ℚ :=
  (s.sensors i).ground_temperature

/-- `float get_ground_temperature(void)` (header line 83):
`get_ground_temperature(_primary)`. -/
def get_ground_temperature_primary (s : AP_Baro) : ℚ :=
  s.get_ground_temperature s._primary

/-- `float get_ground_pressure(uint8_t i)` (header line 89). -/
def get_ground_pressure (s : AP_Baro) (i : Fin BARO_MAX_INSTANCES) : ℚ :=
  (s.sensors i).ground_pressure

/-- `float get_ground_pressure(void)` (header line 88):
`get_ground_pressure(_primary)`. -/
def get_ground_pressure_primary (s : AP_Baro) : ℚ :=
  s.get_ground_pressure s._primary

/-- `uint32_t get_last_update(uint8_t instance)` (header line 98).
Translated exactly as written in the source: the body reads
`sensors[_primary].last_update_ms`, ignoring the `instance` argument. -/
def get_last_update (s : AP_Baro) (_i : Fin BARO_MAX_INSTANCES) : ℕ :=
  (s.sensors s._primary).last_update_ms

/-- `uint32_t get_last_update(void)` (header line 97): `get_last_update(_primary)`. -/
def get_last_update_primary (s : AP_Baro) : ℕ :=
  s.get_last_update s._primary

/-- `uint8_t num_instances(void)` (header line 134). -/
def num_instances (s : AP_Baro) : ℕ :=
  s._num_sensors

end AP_Baro

/-- A sensor record with all fields zeroed / cleared, as left by the
zero-initialising constructor. -/
def zeroSensor : Sensor :=
  { type := BARO_TYPE_AIR
    precision_multiplier := 1
    last_update_ms := 0
    healthy := false
    alt_ok := false
    calibrated := false
    pressure := 0
    temperature := 0
    altitude := 0
    ground_temperature := 0
    ground_pressure := 0 }

/-- The HIL staging record with all fields cleared. -/
def zeroHil : HilState :=
  { pressure := 0
    temperature := 0
    altitude := 0
    climb_rate := 0
    last_update_ms := 0
    updated := false
    have_alt := false
    have_last_update := false }

/-- The frontend state at boot: no sensors registered, all records cleared. -/
def baseState : AP_Baro :=
  { _num_drivers := 0
    _num_sensors := 0
    _primary := 0
    sensors := fun _ => zeroSensor
    staged := fun _ => none
    _hil := zeroHil
    _alt_offset := 0
    _alt_offset_active := 0
    _primary_baro := 0
    _last_altitude_EAS2TAS := 0
    _EAS2TAS := 0
    _external_temperature := 0
    _last_external_temperature_ms := 0
    _climb_rate_filter := []
    _specific_gravity := 1
    _base_pressure := 0
    _reset_base_pressure := false
    _hil_mode := false
    _last_notify_ms := 0 }

/-- A state in which instance 0 (the primary) last updated at 7 ms and
instance 1 last updated at 42 ms: the input exhibiting the
`get_last_update` bug. -/
def lastUpdateBugState : AP_Baro :=
  { baseState with
    _num_sensors := 2
    sensors := fun i =>
      if i = 1 then { zeroSensor with last_update_ms := 42 }
      else { zeroSensor with last_update_ms := 7 } }

/-- C1: the claim says `get_last_update(i)` returns instance i's own
`last_update_ms`. The source (header line 98) instead reads
`sensors[_primary].last_update_ms`, ignoring the `instance` argument:
with `_primary = 0`, instance 0 stamped 7 ms and instance 1 stamped 42 ms,
`get_last_update(1)` returns 7, not the 42 stored in instance 1's record. -/
theorem get_last_update_ignores_instance :
    AP_Baro.get_last_update lastUpdateBugState 1 = 7 ∧
    (lastUpdateBugState.sensors 1).last_update_ms = 42 := by
  constructor
  · rfl
  · rfl

/-- C2: `healthy(instance)` is true exactly when all three per-instance
flags — `healthy` (sensor health), `alt_ok` (altitude valid) and
`calibrated` — hold (header line 37). -/
theorem healthy_iff_three_flags (s : AP_Baro) (i : Fin BARO_MAX_INSTANCES) :
    AP_Baro.healthy s i = true ↔
      ((s.sensors i).healthy = true ∧ (s.sensors i).alt_ok = true ∧
        (s.sensors i).calibrated = true) := by
  simp [AP_Baro.healthy, Bool.and_eq_true, and_assoc]

/-- C4: every no-argument accessor of the header resolves to the primary
instance index `_primary`: `healthy()`, `get_pressure()`,
`get_temperature()`, `get_altitude()`, `get_ground_temperature()` and
`get_ground_pressure()` (header lines 36, 43, 47, 64, 83, 88). -/
theorem primary_accessors_resolve (s : AP_Baro) :
    AP_Baro.healthy_primary s = AP_Baro.healthy s s._primary ∧
    AP_Baro.get_pressure_primary s = AP_Baro.get_pressure s s._primary ∧
    AP_Baro.get_temperature_primary s = AP_Baro.get_temperature s s._primary ∧
    AP_Baro.get_altitude_primary s = AP_Baro.get_altitude s s._primary ∧
    AP_Baro.get_ground_temperature_primary s = AP_Baro.get_ground_temperature s s._primary ∧
    AP_Baro.get_ground_pressure_primary s = AP_Baro.get_ground_pressure s s._primary :=
  ⟨rfl, rfl, rfl, rfl, rfl, rfl⟩

/-- Overwrite only the three health flags of instance i, leaving every
stored reading in place: used to state that the value accessors are
insensitive to health state. -/
def setFlags (s : AP_Baro) (i : Fin BARO_MAX_INSTANCES) (h a c : Bool) : AP_Baro :=
  { s with sensors := (Function.update s.sensors i
      { s.sensors i with healthy := h, alt_ok := a, calibrated := c }) }

/-- C6: the value accessors are total functions of the stored record:
`get_pressure(i)`, `get_temperature(i)` and `get_altitude(i)` return the
last-known stored field (header lines 44, 48, 65) and their result is
unchanged by any setting of the health flags (unhealthy, uncalibrated or
stale included) — there is no error signalling and no substitute value. -/
theorem accessors_return_last_known (s : AP_Baro) (i : Fin BARO_MAX_INSTANCES)
    (h a c : Bool) :
    AP_Baro.get_pressure s i = (s.sensors i).pressure ∧
    AP_Baro.get_temperature s i = (s.sensors i).temperature ∧
    AP_Baro.get_altitude s i = (s.sensors i).altitude ∧
    AP_Baro.get_pressure (setFlags s i h a c) i = AP_Baro.get_pressure s i ∧
    AP_Baro.get_temperature (setFlags s i h a c) i = AP_Baro.get_temperature s i ∧
    AP_Baro.get_altitude (setFlags s i h a c) i = AP_Baro.get_altitude s i := by
  refine ⟨rfl, rfl, rfl, ?_, ?_, ?_⟩ <;>
    simp [setFlags, AP_Baro.get_pressure, AP_Baro.get_temperature, AP_Baro.get_altitude]

namespace AP_Baro

/-- Guarded counterpart of the unchecked `sensors[instance]` array access
used by the header's accessors: in the C++ source the index is used with
no bounds check, so the total embedding guards it and returns `none` on
the out-of-range branch. -/
def sensorAt (s : AP_Baro) (i : ℕ) : Option Sensor :=
  if h : i < BARO_MAX_INSTANCES then some (s.sensors ⟨i, h⟩) else none

/-- `healthy(uint8_t)` with the array access guarded. -/
def healthyAt (s : AP_Baro) (i : ℕ) : Option Bool :=
  (s.sensorAt i).map fun r => r.healthy && r.alt_ok && r.calibrated

/-- `get_pressure(uint8_t)` with the array access guarded. -/
def get_pressureAt (s : AP_Baro) (i : ℕ) : Option ℚ :=
  (s.sensorAt i).map Sensor.pressure

/-- `get_temperature(uint8_t)` with the array access guarded. -/
def get_temperatureAt (s : AP_Baro) (i : ℕ) : Option ℚ :=
  (s.sensorAt i).map Sensor.temperature

/-- `get_altitude(uint8_t)` with the array access guarded. -/
def get_altitudeAt (s : AP_Baro) (i : ℕ) : Option ℚ :=
  (s.sensorAt i).map Sensor.altitude

/-- `get_ground_temperature(uint8_t)` with the array access guarded. -/
def get_ground_temperatureAt (s : AP_Baro) (i : ℕ) : Option ℚ :=
  (s.sensorAt i).map Sensor.ground_temperature

/-- `get_ground_pressure(uint8_t)` with the array access guarded. -/
def get_ground_pressureAt (s : AP_Baro) (i : ℕ) : Option ℚ :=
  (s.sensorAt i).map Sensor.ground_pressure

end AP_Baro

/-- C10: the instance-indexed accessors index `sensors[]` with no bounds
check; under the precondition `i < BARO_MAX_INSTANCES` the guarded
embedding's out-of-range branch is unreachable — every guarded accessor
hits the in-range branch and agrees with the unguarded one. -/
theorem accessors_in_range (s : AP_Baro) (i : ℕ) (h : i < BARO_MAX_INSTANCES) :
    AP_Baro.sensorAt s i = some (s.sensors ⟨i, h⟩) ∧
    AP_Baro.healthyAt s i = some (AP_Baro.healthy s ⟨i, h⟩) ∧
    AP_Baro.get_pressureAt s i = some (AP_Baro.get_pressure s ⟨i, h⟩) ∧
    AP_Baro.get_temperatureAt s i = some (AP_Baro.get_temperature s ⟨i, h⟩) ∧
    AP_Baro.get_altitudeAt s i = some (AP_Baro.get_altitude s ⟨i, h⟩) ∧
    AP_Baro.get_ground_temperatureAt s i = some (AP_Baro.get_ground_temperature s ⟨i, h⟩) ∧
    AP_Baro.get_ground_pressureAt s i = some (AP_Baro.get_ground_pressure s ⟨i, h⟩) := by
  refine ⟨?_, ?_, ?_, ?_, ?_, ?_, ?_⟩ <;>
    simp [AP_Baro.sensorAt, AP_Baro.healthyAt, AP_Baro.get_pressureAt,
      AP_Baro.get_temperatureAt, AP_Baro.get_altitudeAt,
      AP_Baro.get_ground_temperatureAt, AP_Baro.get_ground_pressureAt, h,
      AP_Baro.healthy, AP_Baro.get_pressure, AP_Baro.get_temperature,
      AP_Baro.get_altitude, AP_Baro.get_ground_temperature, AP_Baro.get_ground_pressure]

/-- Witness for C10 at the concrete in-range index 2 of the boot state. -/
theorem accessors_in_range_witness :
    AP_Baro.sensorAt baseState 2 = some (baseState.sensors 2) ∧
    AP_Baro.get_pressureAt baseState 2 = some (AP_Baro.get_pressure baseState 2) := by
  have h := accessors_in_range baseState 2 (by decide)
  exact ⟨h.1, h.2.2.1⟩

namespace AP_Baro

/-- Modelled from the spec: the staleness window bounding how old a
sample may be while the instance still counts as healthy (the body of
`update()` is not under src/; the spec only requires the window to be a
fixed bound). -/
abbrev BARO_STALE_MS : ℕ := 500

/-- Modelled from the spec: `register_sensor()` (declared at header
lines 129-131, body not under src/) "allocates the next free instance
slot and returns its index; fails fatally if instance capacity is
exhausted". The fatal panic is modelled as `none` in the first
component, with the state returned unchanged. -/
def register_sensor (s : AP_Baro) : Option ℕ × AP_Baro :=
  if BARO_MAX_INSTANCES ≤ s._num_sensors then (none, s)
  else (some s._num_sensors, { s with _num_sensors := s._num_sensors + 1 })

/-- Modelled from the spec: the per-instance part of `update()` (body not
under src/). A staged sample inside the staleness window is consumed:
pressure converted to Pascals via `precision_multiplier`, temperature and
`last_update_ms` taken over, altitude recomputed from the ground
reference (the numeric altitude formula lives outside src/, so it is
passed in as `altFn`). A stale sample is not consumed. Afterwards
`healthy` is recomputed as "a sample was received within the staleness
window"; on a fresh instance `alt_ok` is valid exactly when a calibration
reference exists, and on a stale instance all three health flags degrade
(spec section 3 requires altitude_valid and calibrated to be true only
when sensor_healthy is). -/
def updateSensor (altFn : ℚ → ℚ → ℚ) (now : ℕ) (st : Option StagedSample)
    (r : Sensor) : Sensor × Option StagedSample :=
  let consumed : Sensor × Option StagedSample :=
    match st with
    | some smp =>
      if now ≤ smp.time_ms + BARO_STALE_MS then
        let p := smp.pressure * (r.precision_multiplier : ℚ)
        ({ r with pressure := p, temperature := smp.temperature,
                  last_update_ms := smp.time_ms,
                  altitude := altFn r.ground_pressure p }, none)
      else (r, st)
    | none => (r, st)
  let r1 := consumed.1
  if now ≤ r1.last_update_ms + BARO_STALE_MS then
    ({ r1 with healthy := true, alt_ok := r1.calibrated }, consumed.2)
  else
    ({ r1 with healthy := false, alt_ok := false, calibrated := false }, consumed.2)

/-- Modelled from the spec: `update()` (body not under src/) pulls the
staged sample of every instance into its record. -/
def update (altFn : ℚ → ℚ → ℚ) (now : ℕ) (s : AP_Baro) : AP_Baro :=
  { s with
    sensors := fun i => (updateSensor altFn now (s.staged i) (s.sensors i)).1,
    staged := fun i => (updateSensor altFn now (s.staged i) (s.sensors i)).2 }

/-- Modelled from the spec: `accumulate()` (body not under src/) only
stages a raw sample for an instance and never mutates derived fields. -/
def accumulate (s : AP_Baro) (i : Fin BARO_MAX_INSTANCES) (smp : StagedSample) :
    AP_Baro :=
  { s with staged := Function.update s.staged i (some smp) }

/-- First window of `cnt` consecutive samples that are all in range,
scanning left to right; `none` models the calibration timeout (no such
run arrived before the deadline). -/
def consecutiveRun (cnt : ℕ) (inRange : ℚ × ℚ → Bool) :
    List (ℚ × ℚ) → Option (List (ℚ × ℚ))
  | [] => if cnt = 0 then some [] else none
  | x :: xs =>
    if decide (cnt ≤ (x :: xs).length) && ((x :: xs).take cnt).all inRange then
      some ((x :: xs).take cnt)
    else consecutiveRun cnt inRange xs

/-- Average of the pressure components of a sample run. -/
def avgPressure (l : List (ℚ × ℚ)) : ℚ :=
  (l.map Prod.fst).sum / (l.length : ℚ)

/-- Average of the temperature components of a sample run. -/
def avgTemperature (l : List (ℚ × ℚ)) : ℚ :=
  (l.map Prod.snd).sum / (l.length : ℚ)

/-- Modelled from the spec: the per-instance part of `calibrate()` (body
not under src/). Every instance first re-enters SAMPLING (its
`calibrated` flag is cleared, and with it `alt_ok`, since the altitude
reference is being re-established). An instance that is unhealthy at the
start of the call is skipped and remains uncalibrated. A healthy
instance that supplies a required number of consecutive in-range samples
ends CALIBRATED with its ground references set to the accumulated
averages; otherwise the timeout leaves it uncalibrated. -/
def calibrateSensor (cnt : ℕ) (inRange : ℚ × ℚ → Bool)
    (samples : List (ℚ × ℚ)) (r : Sensor) : Sensor :=
  let r0 := { r with calibrated := false, alt_ok := false }
  if r.healthy then
    match consecutiveRun cnt inRange samples with
    | some run =>
      { r0 with calibrated := true,
                ground_pressure := avgPressure run,
                ground_temperature := avgTemperature run }
    | none => r0
  else r0

/-- Modelled from the spec: `calibrate()` (body not under src/) runs the
per-instance calibration over every instance in the same call, each with
its own sample stream. -/
def calibrate (cnt : ℕ) (inRange : ℚ × ℚ → Bool)
    (samples : Fin BARO_MAX_INSTANCES → List (ℚ × ℚ)) (s : AP_Baro) : AP_Baro :=
  { s with sensors := fun i => calibrateSensor cnt inRange (samples i) (s.sensors i) }

/-- Modelled from the spec: the instance-indexed Simulation/Replay
Injector `setHIL(instance, pressure, temperature, altitude, climb_rate,
last_update_ms)` (declared at header lines 109-111, body not under
src/). It directly sets the target instance's pressure, temperature,
altitude and timestamp, bypassing the pipeline, and publishes the
injected climb rate and flags through the `_hil` staging struct. -/
def setHIL (s : AP_Baro) (i : Fin BARO_MAX_INSTANCES) (p t a cr : ℚ)
    (ts : ℕ) : AP_Baro :=
  { s with
    sensors := (Function.update s.sensors i
      { s.sensors i with pressure := p, temperature := t, altitude := a,
                         last_update_ms := ts }),
    _hil := { s._hil with pressure := p, temperature := t, altitude := a,
                          climb_rate := cr, last_update_ms := ts,
                          updated := true, have_alt := true,
                          have_last_update := true } }

/-- Modelled from the spec: the aggregate injector `setHIL(altitude_msl)`
(header line 107, body not under src/) stages an altitude only. -/
def setHIL_altitude (s : AP_Baro) (a : ℚ) : AP_Baro :=
  { s with _hil := { s._hil with altitude := a, have_alt := true } }

/-- Modelled from the spec: `set_external_temperature()` (header line 94,
body not under src/) records the override value; its staleness timestamp
is left to the caller's clock, passed in as `now`. -/
def set_external_temperature (s : AP_Baro) (t : ℚ) (now : ℕ) : AP_Baro :=
  { s with _external_temperature := t, _last_external_temperature_ms := now }

/-- `void set_primary_baro(uint8_t primary)` (header line 113). -/
def set_primary_baro (s : AP_Baro) (p : ℤ) : AP_Baro :=
  { s with _primary_baro := p }

/-- `void set_type(uint8_t instance, uint8_t type)` (header line 114). -/
def set_type (s : AP_Baro) (i : Fin BARO_MAX_INSTANCES) (ty : ℕ) : AP_Baro :=
  { s with sensors := (Function.update s.sensors i
      { s.sensors i with type := ty }) }

/-- `void set_precision_multiplier(uint8_t instance, uint8_t multiplier)`
(header line 115). -/
def set_precision_multiplier (s : AP_Baro) (i : Fin BARO_MAX_INSTANCES)
    (m : ℕ) : AP_Baro :=
  { s with sensors := (Function.update s.sensors i
      { s.sensors i with precision_multiplier := m }) }

/-- `void set_hil_mode(void)` (header line 137). -/
def set_hil_mode (s : AP_Baro) : AP_Baro :=
  { s with _hil_mode := true }

/-- `void set_baro_drift_altitude(float alt)` (header line 140). -/
def set_baro_drift_altitude (s : AP_Baro) (a : ℚ) : AP_Baro :=
  { s with _alt_offset := a }

/-- Modelled from the spec: the per-instance part of
`update_calibration()` (header lines 58-60, body not under src/): the
non-blocking incremental variant re-estimates the ground references from
the instance's latest single sample, only for currently healthy
instances, without resetting the calibration state machine (no flag is
touched). -/
def updateCalibrationSensor (r : Sensor) : Sensor :=
  if r.healthy then
    { r with ground_pressure := r.pressure, ground_temperature := r.temperature }
  else r

/-- Modelled from the spec: `update_calibration()` (header line 60, body
not under src/) applies the incremental re-baseline to every instance. -/
def update_calibration (s : AP_Baro) : AP_Baro :=
  { s with sensors := fun i => updateCalibrationSensor (s.sensors i) }

/-- `n` successive instance-slot claims through `register_sensor()`, as
performed by the backends while they are being loaded. -/
def registerN : ℕ → AP_Baro → AP_Baro
  | 0, s => s
  | n + 1, s => registerN n (register_sensor s).2

/-- Modelled from the spec: `init()` (header line 29, body not under
src/) loads the backend drivers; each loaded backend claims its instance
slots through `register_sensor()` during its own setup. The number of
drivers found and the total number of slots they claim are probe-time
configuration data, passed in as `drivers` and `claims`. -/
def init (drivers claims : ℕ) (s : AP_Baro) : AP_Baro :=
  { registerN claims s with
    _num_drivers := min (s._num_drivers + drivers) BARO_MAX_DRIVERS }

end AP_Baro

/-- The public mutating operations of the frontend — every mutating
member of the header's public interface: `init()` (line 29), `update()`
(line 33), `accumulate()` (line 52), `calibrate()` (line 56),
`update_calibration()` (line 60), `register_sensor()` (line 131), both
`setHIL` overloads (lines 107, 111), `set_external_temperature()`
(line 94) and the inline setters (lines 113-115, 137, 140) — with the
data each one consumes carried as constructor arguments (samples,
clocks, probe results, and the altitude formula whose numeric body lives
outside src/). -/
inductive Op where
  | init (drivers claims : ℕ)
  | update (altFn : ℚ → ℚ → ℚ) (now : ℕ)
  | accumulate (i : Fin BARO_MAX_INSTANCES) (smp : StagedSample)
  | calibrate (cnt : ℕ) (inRange : ℚ × ℚ → Bool)
      (samples : Fin BARO_MAX_INSTANCES → List (ℚ × ℚ))
  | updateCalibration
  | registerSensor
  | setHIL (i : Fin BARO_MAX_INSTANCES) (p t a cr : ℚ) (ts : ℕ)
  | setHILaltitude (a : ℚ)
  | setExternalTemperature (t : ℚ) (now : ℕ)
  | setPrimaryBaro (p : ℤ)
  | setType (i : Fin BARO_MAX_INSTANCES) (ty : ℕ)
  | setPrecisionMultiplier (i : Fin BARO_MAX_INSTANCES) (m : ℕ)
  | setHilMode
  | setBaroDriftAltitude (a : ℚ)

/-- One public operation applied to the frontend state. -/
def step (op : Op) (s : AP_Baro) : AP_Baro :=
  match op with
  | .init drivers claims => AP_Baro.init drivers claims s
  | .update altFn now => AP_Baro.update altFn now s
  | .accumulate i smp => AP_Baro.accumulate s i smp
  | .calibrate cnt inRange samples => AP_Baro.calibrate cnt inRange samples s
  | .updateCalibration => AP_Baro.update_calibration s
  | .registerSensor => (AP_Baro.register_sensor s).2
  | .setHIL i p t a cr ts => AP_Baro.setHIL s i p t a cr ts
  | .setHILaltitude a => AP_Baro.setHIL_altitude s a
  | .setExternalTemperature t now => AP_Baro.set_external_temperature s t now
  | .setPrimaryBaro p => AP_Baro.set_primary_baro s p
  | .setType i ty => AP_Baro.set_type s i ty
  | .setPrecisionMultiplier i m => AP_Baro.set_precision_multiplier s i m
  | .setHilMode => AP_Baro.set_hil_mode s
  | .setBaroDriftAltitude a => AP_Baro.set_baro_drift_altitude s a

/-- The per-instance health-flag invariant of the spec's data model:
altitude_valid implies calibrated, and either of those implies
sensor_healthy. -/
abbrev sensorInv (r : Sensor) : Prop :=
  (r.alt_ok = true → r.calibrated = true) ∧
  ((r.alt_ok = true ∨ r.calibrated = true) → r.healthy = true)

/-- The health-flag invariant over every instance of the frontend. -/
abbrev flagsInv (s : AP_Baro) : Prop :=
  ∀ i : Fin BARO_MAX_INSTANCES, sensorInv (s.sensors i)

/-- The record produced by one `update()` pass satisfies the health-flag
invariant outright: a fresh instance gets `alt_ok` equal to its
calibration flag with `healthy` set, a stale one has all three flags
cleared. -/
theorem updateSensor_inv (altFn : ℚ → ℚ → ℚ) (now : ℕ)
    (st : Option StagedSample) (r : Sensor) :
    sensorInv (AP_Baro.updateSensor altFn now st r).1 := by
  unfold AP_Baro.updateSensor
  cases st <;> dsimp only <;> (repeat' split) <;> simp_all [sensorInv]

/-- The record produced by one `calibrate()` pass satisfies the
health-flag invariant outright: `alt_ok` is cleared on entering SAMPLING
and `calibrated` is only set when the instance was healthy. -/
theorem calibrateSensor_inv (cnt : ℕ) (inRange : ℚ × ℚ → Bool)
    (samples : List (ℚ × ℚ)) (r : Sensor) :
    sensorInv (AP_Baro.calibrateSensor cnt inRange samples r) := by
  unfold AP_Baro.calibrateSensor
  dsimp only
  by_cases h : r.healthy = true <;> (repeat' split) <;> simp_all [sensorInv]

/-- Repeated slot claims leave the per-instance records untouched:
`register_sensor` only advances the claimed-slot count. -/
theorem registerN_sensors (n : ℕ) (s : AP_Baro) :
    (AP_Baro.registerN n s).sensors = s.sensors := by
  induction n generalizing s with
  | zero => rfl
  | succ n ih =>
    rw [AP_Baro.registerN, ih]
    unfold AP_Baro.register_sensor
    split <;> rfl

/-- Repeated slot claims never decrease the claimed-slot count. -/
theorem registerN_num_le (n : ℕ) (s : AP_Baro) :
    s._num_sensors ≤ (AP_Baro.registerN n s)._num_sensors := by
  induction n generalizing s with
  | zero => exact le_refl _
  | succ n ih =>
    rw [AP_Baro.registerN]
    refine le_trans ?_ (ih (AP_Baro.register_sensor s).2)
    unfold AP_Baro.register_sensor
    split
    · exact le_refl _
    · exact Nat.le_succ _

/-- C3: in every reachable state, each instance's `alt_ok` flag implies
its `calibrated` flag, and either of the two implies its `healthy` flag;
the boot state satisfies this and every public operation preserves it. -/
theorem health_flags_invariant :
    flagsInv baseState ∧
      ∀ (op : Op) (s : AP_Baro), flagsInv s → flagsInv (step op s) := by
  constructor
  · decide
  · intro op s hs
    cases op with
    | init drivers claims =>
      intro i
      have h : (step (Op.init drivers claims) s).sensors = s.sensors := by
        simp only [step, AP_Baro.init]
        exact registerN_sensors claims s
      rw [h]
      exact hs i
    | update altFn now =>
      intro i
      exact updateSensor_inv altFn now (s.staged i) (s.sensors i)
    | accumulate i smp => exact hs
    | updateCalibration =>
      intro i
      simp only [step, AP_Baro.update_calibration]
      unfold AP_Baro.updateCalibrationSensor
      split
      · simpa [sensorInv] using hs i
      · exact hs i
    | calibrate cnt inRange samples =>
      intro i
      exact calibrateSensor_inv cnt inRange (samples i) (s.sensors i)
    | registerSensor =>
      intro i
      simp only [step, AP_Baro.register_sensor]
      split <;> exact hs i
    | setHIL i p t a cr ts =>
      intro j
      rcases eq_or_ne j i with h | h
      · subst h
        simpa [step, AP_Baro.setHIL, Function.update_same] using hs j
      · simpa [step, AP_Baro.setHIL, Function.update_noteq h] using hs j
    | setHILaltitude a => exact hs
    | setExternalTemperature t now => exact hs
    | setPrimaryBaro p => exact hs
    | setType i ty =>
      intro j
      rcases eq_or_ne j i with h | h
      · subst h
        simpa [step, AP_Baro.set_type, Function.update_same] using hs j
      · simpa [step, AP_Baro.set_type, Function.update_noteq h] using hs j
    | setPrecisionMultiplier i m =>
      intro j
      rcases eq_or_ne j i with h | h
      · subst h
        simpa [step, AP_Baro.set_precision_multiplier, Function.update_same] using hs j
      · simpa [step, AP_Baro.set_precision_multiplier, Function.update_noteq h] using hs j
    | setHilMode => exact hs
    | setBaroDriftAltitude a => exact hs

/-- Witness for C3: the invariant holds after a concrete operation on the
boot state, obtained from the preservation theorem. -/
theorem health_flags_invariant_witness :
    flagsInv (step Op.registerSensor baseState) :=
  health_flags_invariant.2 Op.registerSensor baseState (by decide)

/-- A frontend state whose three instance slots are all claimed. -/
def fullState : AP_Baro :=
  { baseState with _num_sensors := 3 }

/-- C5: `register_sensor()` allocates the next free slot and returns its
index; with all BARO_MAX_INSTANCES slots claimed it fails deterministically
with no mutation of the store (the model is a pure function, so the
outcome is the same on every run); and no public operation ever decreases
the claimed-slot count, so slots are never released or reused. -/
theorem register_sensor_spec (s : AP_Baro) :
    (BARO_MAX_INSTANCES ≤ s._num_sensors →
      AP_Baro.register_sensor s = (none, s)) ∧
    (s._num_sensors < BARO_MAX_INSTANCES →
      AP_Baro.register_sensor s =
        (some s._num_sensors, { s with _num_sensors := s._num_sensors + 1 })) ∧
    ∀ op : Op, s._num_sensors ≤ (step op s)._num_sensors := by
  refine ⟨?_, ?_, ?_⟩
  · intro h
    simp [AP_Baro.register_sensor, h]
  · intro h
    simp [AP_Baro.register_sensor, Nat.not_le.mpr h]
  · intro op
    cases op with
    | registerSensor =>
      simp only [step, AP_Baro.register_sensor]
      split
      · exact le_refl _
      · exact Nat.le_succ _
    | init drivers claims =>
      simpa [step, AP_Baro.init] using registerN_num_le claims s
    | update altFn now => exact le_refl _
    | accumulate i smp => exact le_refl _
    | updateCalibration => exact le_refl _
    | calibrate cnt inRange samples => exact le_refl _
    | setHIL i p t a cr ts => exact le_refl _
    | setHILaltitude a => exact le_refl _
    | setExternalTemperature t now => exact le_refl _
    | setPrimaryBaro p => exact le_refl _
    | setType i ty => exact le_refl _
    | setPrecisionMultiplier i m => exact le_refl _
    | setHilMode => exact le_refl _
    | setBaroDriftAltitude a => exact le_refl _

/-- Witness for C5: registering a sensor with all three slots claimed
fails with the state unchanged. -/
theorem register_sensor_spec_witness :
    AP_Baro.register_sensor fullState = (none, fullState) :=
  (register_sensor_spec fullState).1 (by decide)

namespace AP_Baro

/-- Modelled from the spec: the output of the fixed-order derivative
filter over the stored altitude history (`DerivativeFilterFloat_Size7`,
header line 177; the filter's coefficients live outside src/, so a
representative finite-difference over the history is used — the frame
theorems below depend only on the history being untouched). -/
def derivFilterOutput (hist : List ℚ) : ℚ :=
  (hist.getLastD 0 - hist.headD 0) / ((hist.length : ℚ) - 1)

/-- Modelled from the spec: `float get_climb_rate(void)` (header line 79,
body not under src/) returns the climb-rate filter's current output. -/
def get_climb_rate (s : AP_Baro) : ℚ :=
  derivFilterOutput s._climb_rate_filter

end AP_Baro

/-- C7: injecting values for instance 1 through `setHIL(1, p, t, a, cr,
ts)` leaves instance 0's whole record — pressure, temperature and
altitude included — and the climb-rate filter state (hence the climb-rate
output) unchanged, for every prior state and all injected values. -/
theorem setHIL_instance1_frame (s : AP_Baro) (p t a cr : ℚ) (ts : ℕ) :
    (AP_Baro.setHIL s 1 p t a cr ts).sensors 0 = s.sensors 0 ∧
    AP_Baro.get_pressure (AP_Baro.setHIL s 1 p t a cr ts) 0 =
      AP_Baro.get_pressure s 0 ∧
    AP_Baro.get_temperature (AP_Baro.setHIL s 1 p t a cr ts) 0 =
      AP_Baro.get_temperature s 0 ∧
    AP_Baro.get_altitude (AP_Baro.setHIL s 1 p t a cr ts) 0 =
      AP_Baro.get_altitude s 0 ∧
    (AP_Baro.setHIL s 1 p t a cr ts)._climb_rate_filter = s._climb_rate_filter ∧
    AP_Baro.get_climb_rate (AP_Baro.setHIL s 1 p t a cr ts) =
      AP_Baro.get_climb_rate s := by
  have h01 : (0 : Fin BARO_MAX_INSTANCES) ≠ 1 := by decide
  refine ⟨?_, ?_, ?_, ?_, rfl, rfl⟩ <;>
    simp [AP_Baro.setHIL, AP_Baro.get_pressure, AP_Baro.get_temperature,
      AP_Baro.get_altitude, Function.update_noteq h01]

/-- A state whose instance 0 is healthy and whose instances 1 and 2 are
unhealthy: the configuration exercising the calibrate skip rule. -/
def mixedHealthState : AP_Baro :=
  { baseState with
    _num_sensors := 2
    sensors := fun i =>
      if i = 0 then { zeroSensor with healthy := true } else zeroSensor }

/-- C8: within one `calibrate()` call, an instance that is unhealthy at
the start is skipped and its `calibrated` flag is false when the call
returns, while an instance that is healthy at the start and supplies a
full run of consecutive in-range samples ends the same call with
`calibrated` true and its ground references set to the accumulated
averages. -/
theorem calibrate_skips_unhealthy (cnt : ℕ) (inRange : ℚ × ℚ → Bool)
    (samples : Fin BARO_MAX_INSTANCES → List (ℚ × ℚ)) (s : AP_Baro)
    (i : Fin BARO_MAX_INSTANCES) :
    ((s.sensors i).healthy = false →
      ((AP_Baro.calibrate cnt inRange samples s).sensors i).calibrated = false) ∧
    ((s.sensors i).healthy = true →
      ∀ run, AP_Baro.consecutiveRun cnt inRange (samples i) = some run →
        ((AP_Baro.calibrate cnt inRange samples s).sensors i).calibrated = true ∧
        ((AP_Baro.calibrate cnt inRange samples s).sensors i).ground_pressure =
          AP_Baro.avgPressure run ∧
        ((AP_Baro.calibrate cnt inRange samples s).sensors i).ground_temperature =
          AP_Baro.avgTemperature run) := by
  constructor
  · intro h
    simp [AP_Baro.calibrate, AP_Baro.calibrateSensor, h]
  · intro h run hrun
    simp [AP_Baro.calibrate, AP_Baro.calibrateSensor, h, hrun]

/-- Witness for C8: calibrating `mixedHealthState` with one required
in-range sample of (101325 Pa, 15 °C) per instance leaves the unhealthy
instance 1 uncalibrated and calibrates the healthy instance 0 with its
ground pressure set to the average 101325. -/
theorem calibrate_skips_unhealthy_witness :
    ((AP_Baro.calibrate 1 (fun _ => true) (fun _ => [(101325, 15)])
        mixedHealthState).sensors 1).calibrated = false ∧
    ((AP_Baro.calibrate 1 (fun _ => true) (fun _ => [(101325, 15)])
        mixedHealthState).sensors 0).calibrated = true ∧
    ((AP_Baro.calibrate 1 (fun _ => true) (fun _ => [(101325, 15)])
        mixedHealthState).sensors 0).ground_pressure = 101325 := by
  have h1 := (calibrate_skips_unhealthy 1 (fun _ => true)
    (fun _ => [(101325, 15)]) mixedHealthState 1).1 (by decide)
  have h0 := (calibrate_skips_unhealthy 1 (fun _ => true)
    (fun _ => [(101325, 15)]) mixedHealthState 0).2 (by decide)
    [(101325, 15)] (by decide)
  refine ⟨h1, h0.1, ?_⟩
  rw [h0.2.1]
  norm_num [AP_Baro.avgPressure]

namespace AP_Baro

/-- Modelled from the spec: the troposphere temperature ratio θ computed
by `SimpleAtmosphere` (declared at header line 186, body not under src/):
the ISA closed form T/T0 = (T0 − L·h)/T0 with T0 = 288.15 K and lapse
rate L = 0.0065 K/m, valid below 11000 m. Real numbers stand in for the
source's floats. -/
noncomputable def theta (alt : ℝ) : ℝ :=
  (288.15 - 0.0065 * alt) / 288.15

/-- Modelled from the spec: the exponent g/(R·L) of the ISA pressure
ratio closed form, with g = 9.80665 m/s², R = 287.053 J/(kg·K) and
L = 0.0065 K/m. -/
noncomputable def pressureExp : ℝ :=
  9.80665 / (287.053 * 0.0065)

/-- Modelled from the spec: the ISA pressure ratio δ = θ ^ (g/(R·L)). -/
noncomputable def delta (alt : ℝ) : ℝ :=
  theta alt ^ pressureExp

/-- Modelled from the spec: the ISA density ratio σ = δ / θ. -/
noncomputable def sigmaRatio (alt : ℝ) : ℝ :=
  delta alt / theta alt

/-- Modelled from the spec: the equivalent-to-true-airspeed scale factor
at a given altitude, 1/√σ. -/
noncomputable def EAS2TAS_at (alt : ℝ) : ℝ :=
  Real.sqrt (1 / sigmaRatio alt)

/-- Modelled from the spec: `float get_EAS2TAS(void)` (header line 72,
body not under src/) derives the scale factor from the primary
instance's current altitude and the atmosphere model (the cache through
`_last_altitude_EAS2TAS`/`_EAS2TAS` only short-circuits recomputation of
this same value, so the returned value is modelled as the recomputation). -/
noncomputable def get_EAS2TAS (s : AP_Baro) : ℝ :=
  EAS2TAS_at (((s.sensors s._primary).altitude : ℚ) : ℝ)

end AP_Baro

/-- Replace only the primary instance's altitude, leaving everything
else in the state as it was: the "two states identical except for the
primary altitude" of the monotonicity claim. -/
def setPrimaryAltitude (s : AP_Baro) (a : ℚ) : AP_Baro :=
  { s with sensors := (Function.update s.sensors s._primary
      { s.sensors s._primary with altitude := a }) }

/-- θ is positive at any altitude not above 10000 m. -/
theorem theta_pos (a : ℝ) (h : a ≤ 10000) : 0 < AP_Baro.theta a := by
  unfold AP_Baro.theta
  apply div_pos
  · linarith
  · norm_num

/-- θ does not increase with altitude. -/
theorem theta_anti (a b : ℝ) (hab : a ≤ b) : AP_Baro.theta b ≤ AP_Baro.theta a := by
  unfold AP_Baro.theta
  rw [div_le_div_right (by norm_num : (0:ℝ) < 288.15)]
  linarith

/-- The ISA pressure exponent g/(R·L) is at least one. -/
theorem one_le_pressureExp : (1 : ℝ) ≤ AP_Baro.pressureExp := by
  unfold AP_Baro.pressureExp
  rw [le_div_iff (by norm_num : (0:ℝ) < 287.053 * 0.0065)]
  norm_num

/-- σ collapses to the closed form θ ^ (g/(R·L) − 1) wherever θ > 0. -/
theorem sigmaRatio_eq_rpow (a : ℝ) (h : 0 < AP_Baro.theta a) :
    AP_Baro.sigmaRatio a = AP_Baro.theta a ^ (AP_Baro.pressureExp - 1) := by
  unfold AP_Baro.sigmaRatio AP_Baro.delta
  rw [Real.rpow_sub h, Real.rpow_one]

/-- The scale factor 1/√σ is monotone non-decreasing in altitude over
[0 m, 10000 m]. -/
theorem EAS2TAS_at_mono (x y : ℝ) (hxy : x ≤ y) (hy : y ≤ 10000) :
    AP_Baro.EAS2TAS_at x ≤ AP_Baro.EAS2TAS_at y := by
  have hty : 0 < AP_Baro.theta y := theta_pos y hy
  have htx : 0 < AP_Baro.theta x := theta_pos x (le_trans hxy hy)
  have hth : AP_Baro.theta y ≤ AP_Baro.theta x := theta_anti x y hxy
  have hexp : (0:ℝ) ≤ AP_Baro.pressureExp - 1 := by
    linarith [one_le_pressureExp]
  have hsy : 0 < AP_Baro.sigmaRatio y := by
    rw [sigmaRatio_eq_rpow y hty]
    exact Real.rpow_pos_of_pos hty _
  have hs : AP_Baro.sigmaRatio y ≤ AP_Baro.sigmaRatio x := by
    rw [sigmaRatio_eq_rpow y hty, sigmaRatio_eq_rpow x htx]
    exact Real.rpow_le_rpow (le_of_lt hty) hth hexp
  unfold AP_Baro.EAS2TAS_at
  exact Real.sqrt_le_sqrt (one_div_le_one_div_of_le hsy hs)

/-- C9: `get_EAS2TAS()` is monotone non-decreasing in the primary
instance's altitude: on any two states identical except that the primary
altitude is a1 ≤ a2, both within [0 m, 10000 m], the value at a1 is at
most the value at a2. -/
theorem get_EAS2TAS_monotone_in_primary_altitude (s : AP_Baro) (a1 a2 : ℚ)
    (h0 : 0 ≤ a1) (h12 : a1 ≤ a2) (h2 : a2 ≤ 10000) :
    AP_Baro.get_EAS2TAS (setPrimaryAltitude s a1) ≤
      AP_Baro.get_EAS2TAS (setPrimaryAltitude s a2) := by
  have e1 : AP_Baro.get_EAS2TAS (setPrimaryAltitude s a1) =
      AP_Baro.EAS2TAS_at ((a1 : ℚ) : ℝ) := by
    simp [AP_Baro.get_EAS2TAS, setPrimaryAltitude, Function.update_same]
  have e2 : AP_Baro.get_EAS2TAS (setPrimaryAltitude s a2) =
      AP_Baro.EAS2TAS_at ((a2 : ℚ) : ℝ) := by
    simp [AP_Baro.get_EAS2TAS, setPrimaryAltitude, Function.update_same]
  rw [e1, e2]
  apply EAS2TAS_at_mono
  · exact_mod_cast h12
  · exact_mod_cast h2

/-- Witness for C9 at the concrete altitudes a1 = a2 = 0 on the boot
state. -/
theorem get_EAS2TAS_monotone_witness :
    AP_Baro.get_EAS2TAS (setPrimaryAltitude baseState 0) ≤
      AP_Baro.get_EAS2TAS (setPrimaryAltitude baseState 0) :=
  get_EAS2TAS_monotone_in_primary_altitude baseState 0 0 (le_refl 0) (le_refl 0)
    (by norm_num)
